import Mathlib

/-!
Verification of the `unifi_respondd` responder (`src/respondd_client.py`)
against its natural-language specification.

The development is a shallow embedding of the Python module:

* pure data classes become Lean structures with the same field names;
* Python `str` helpers that the code relies on (`str.split(" ")`,
  `str.replace(":", "")`, `str(msg, "UTF-8")`, `int(x / 1024)`) are
  translated byte-for-byte into executable Lean functions;
* the stateful parts (the serving loop, the repeated `get_infos()`
  fetches behind the `_aps` property) become explicit state passing: the
  data source is a function from the fetch counter to the fetched list
  (or a fetch failure), and each handled datagram threads the counter;
* Python exceptions become an explicit `Except PyErr` result; the code
  has no try/except, so an error raised while handling one datagram
  aborts the whole loop, exactly as in `ResponddClient.start`;
* the two external standard-library codecs (`json.dumps` and the raw
  deflate `zlib.compressobj(..., -15)` stream) are collaborators, not
  code of this repository: the pipeline takes them as function
  parameters, and theorems that need their documented round-trip
  contracts take those contracts as hypotheses.
-/

/-! ## Python string primitives used by the responder -/

/-- Model of Python `s.replace(":", "")` applied to a character list:
every occurrence of the one-character pattern is replaced by the empty
string, i.e. dropped.  Case is untouched. -/
def pyReplaceChars (pat : Char) (rep : List Char) : List Char → List Char
  | [] => []
  | c :: cs =>
    if c = pat then rep ++ pyReplaceChars pat rep cs
    else c :: pyReplaceChars pat rep cs

/-- Model of Python `mac.replace(":", "")` (line 103 / line 119 of
`respondd_client.py`). -/
def pyReplaceColonEmpty (s : String) : String :=
  String.mk (pyReplaceChars ':' [] s.toList)

/-- Model of Python `text.split(" ")` on a character list: the text is
cut at every single space character; consecutive spaces produce empty
tokens, and the result is never empty (`"".split(" ") == [""]`).  Other
whitespace (tabs, newlines) does not split. -/
def pySplitSpaceChars : List Char → List (List Char)
  | [] => [[]]
  | c :: cs =>
    let r := pySplitSpaceChars cs
    if c = ' ' then [] :: r
    else
      match r with
      | t :: ts => (c :: t) :: ts
      | [] => [[c]]

/-- Model of Python `text.split(" ")` (line 145 of
`respondd_client.py`). -/
def pySplitSpace (s : String) : List String :=
  (pySplitSpaceChars s.toList).map String.mk

/-- Continuation byte test for strict UTF-8 decoding. -/
def isCont (b : Nat) : Bool := 0x80 ≤ b && b < 0xC0

/-- Strict UTF-8 decoder, fuelled so that it is structurally recursive
and evaluates inside the kernel.  Rejects overlong forms, surrogates and
code points above U+10FFFF, like Python's `str(msg, "UTF-8")` (which
raises `UnicodeDecodeError` on such input; here: `none`).  The fuel is
instantiated with the length of the byte list, which always suffices
because every step consumes at least one byte, so the `0, _ :: _` branch
is unreachable. -/
def utf8DecodeAux : Nat → List Nat → Option (List Char)
  | _, [] => some []
  | 0, _ :: _ => none
  | fuel + 1, b :: rest =>
    if b < 0x80 then
      (utf8DecodeAux fuel rest).map (Char.ofNat b :: ·)
    else if b < 0xC2 then none
    else if b < 0xE0 then
      match rest with
      | b1 :: rest2 =>
        if isCont b1 then
          (utf8DecodeAux fuel rest2).map (Char.ofNat ((b - 0xC0) * 64 + (b1 - 0x80)) :: ·)
        else none
      | [] => none
    else if b < 0xF0 then
      match rest with
      | b1 :: b2 :: rest3 =>
        let lo1 := if b = 0xE0 then 0xA0 else 0x80
        let hi1 := if b = 0xED then 0x9F else 0xBF
        if lo1 ≤ b1 && b1 ≤ hi1 && isCont b2 then
          (utf8DecodeAux fuel rest3).map
            (Char.ofNat ((b - 0xE0) * 4096 + (b1 - 0x80) * 64 + (b2 - 0x80)) :: ·)
        else none
      | _ => none
    else if b < 0xF5 then
      match rest with
      | b1 :: b2 :: b3 :: rest4 =>
        let lo1 := if b = 0xF0 then 0x90 else 0x80
        let hi1 := if b = 0xF4 then 0x8F else 0xBF
        if lo1 ≤ b1 && b1 ≤ hi1 && isCont b2 && isCont b3 then
          (utf8DecodeAux fuel rest4).map
            (Char.ofNat ((b - 0xF0) * 262144 + (b1 - 0x80) * 4096 + (b2 - 0x80) * 64 + (b3 - 0x80)) :: ·)
        else none
      | _ => none
    else none

/-- Model of Python `str(msg, "UTF-8")` (line 145): `none` models the
`UnicodeDecodeError` raised on invalid input. -/
def utf8Decode (bs : List Nat) : Option (List Char) :=
  utf8DecodeAux bs.length bs

/-- ASCII encoding of a string, used to build concrete request
datagrams in the witness theorems. -/
def asciiBytes (s : String) : List Nat :=
  s.toList.map Char.toNat

/-! ## Python `int(x / 1024)`

`ap.mem_total / 1024` in Python is *true division*: CPython computes
the rational quotient and rounds it to the nearest IEEE-754 double
(ties to even); `int(...)` then truncates that double toward zero.
Because 1024 is a power of two the rounding happens entirely in the
53-bit significand: the correctly rounded double of `n / 1024` equals
(round n to 53 significant bits) / 1024 exactly.  So for `n ≥ 0`,
`int(n / 1024) = rtdNat n / 1024` with truncating natural division.
This differs from `n // 1024` once `n` exceeds `2 ^ 53`. -/

/-- Fuelled bit length (`bitLenAux n n` terminates long before the fuel
runs out, and evaluates inside the kernel, unlike `Nat.log2`). -/
def bitLenAux : Nat → Nat → Nat
  | 0, _ => 0
  | fuel + 1, n => if n = 0 then 0 else bitLenAux fuel (n / 2) + 1

/-- Number of binary digits of `n`. -/
def bitLen (n : Nat) : Nat := bitLenAux n n

/-- Round a natural number to the nearest IEEE-754 double (53-bit
significand, round to nearest, ties to even).  Exact below `2 ^ 53`.
Models CPython's int-to-53-bit rounding inside `int / int` true
division; the double overflow threshold (around `2 ^ 1034` for a
quotient by 1024) is far above any memory byte count and is not
modelled. -/
def rtdNat (n : Nat) : Nat :=
  if n ≤ 2 ^ 53 then n
  else
    let e := bitLen n - 53
    let q := n / 2 ^ e
    let r := n % 2 ^ e
    if 2 * r < 2 ^ e then q * 2 ^ e
    else if 2 ^ e < 2 * r then (q + 1) * 2 ^ e
    else if q % 2 = 0 then q * 2 ^ e else (q + 1) * 2 ^ e

/-- Model of Python `int(x / 1024)` on an arbitrary-precision int `x`
(lines 122-124 of `respondd_client.py`): true division by 1024 with
correct rounding to double, then truncation toward zero. -/
def pyTrunc1024 (x : Int) : Int :=
  if 0 ≤ x then ((rtdNat x.toNat / 1024 : Nat) : Int)
  else -((rtdNat x.natAbs / 1024 : Nat) : Int)

/-! ## Association lists with Python dict semantics

Python dicts iterate in insertion order; assigning to an existing key
replaces the value in place, assigning to a fresh key appends. -/

/-- Python `d[k] = v`: replace in place if the key exists, else append. -/
def updateAssoc {β : Type} : List (String × β) → String → β → List (String × β)
  | [], k, v => [(k, v)]
  | (k', v') :: rest, k, v =>
    if k' = k then (k, v) :: rest else (k', v') :: updateAssoc rest k v

/-- Python `d[k]` / `k in d`: first (and, for dicts, only) binding. -/
def lookupA {β : Type} : List (String × β) → String → Option β
  | [], _ => none
  | (k', v') :: rest, k => if k' = k then some v' else lookupA rest k

/-! ## Data model (the dataclasses of `respondd_client.py`) -/

structure FirmwareInfo where
  base : String
  release : String
deriving DecidableEq

structure LocationInfo where
  latitude : ℚ
  longitude : ℚ
deriving DecidableEq

structure HardwareInfo where
  model : String
deriving DecidableEq

structure OwnerInfo where
  contact : String
deriving DecidableEq

structure NodeInfo where
  firmware : FirmwareInfo
  hostname : String
  node_id : String
  location : LocationInfo
  hardware : HardwareInfo
  owner : OwnerInfo
deriving DecidableEq

structure ClientInfo where
  total : Int
  wifi : Int
deriving DecidableEq

structure MemoryInfo where
  total : Int
  free : Int
  buffers : Int
deriving DecidableEq

structure StatisticsInfo where
  clients : ClientInfo
  uptime : Int
  node_id : String
  loadavg : ℚ
  memory : MemoryInfo
deriving DecidableEq

/-- One record of the external access-point inventory
(`unifi_respondd.get_infos().accesspoints[i]`), with exactly the
attributes the responder reads.  Python floats that are only passed
through (coordinates, load average) are embedded as rationals. -/
structure AccessPoint where
  name : String
  mac : String
  firmware : String
  latitude : ℚ
  longitude : ℚ
  model : String
  contact : String
  client_count : Int
  uptime : Int
  load_avg : ℚ
  mem_total : Int
  mem_used : Int
  mem_buffer : Int
deriving DecidableEq

/-! ## JSON documents (`dataclasses_json` `to_dict` plus `json.dumps`) -/

/-- JSON-like document tree.  `dataclasses_json`'s `to_dict` keeps the
dataclass field order and Python's int/float distinction, so objects are
ordered field lists and numbers keep their kind. -/
inductive JVal : Type where
  | str (s : String)
  | int (n : Int)
  | num (q : ℚ)
  | obj (fields : List (String × JVal))

/-- Field lookup in a JSON object (string/int/num have no fields). -/
def JVal.get : JVal → String → Option JVal
  | .obj fields, k => lookupA fields k
  | _, _ => none

/-- The `to_dict` view of a `NodeInfo` (field order as declared in the
dataclass). -/
def NodeInfo.to_dict (n : NodeInfo) : JVal :=
  .obj [("firmware", .obj [("base", .str n.firmware.base), ("release", .str n.firmware.release)]),
        ("hostname", .str n.hostname),
        ("node_id", .str n.node_id),
        ("location", .obj [("latitude", .num n.location.latitude),
                           ("longitude", .num n.location.longitude)]),
        ("hardware", .obj [("model", .str n.hardware.model)]),
        ("owner", .obj [("contact", .str n.owner.contact)])]

/-- The `to_dict` view of a `StatisticsInfo`. -/
def StatisticsInfo.to_dict (s : StatisticsInfo) : JVal :=
  .obj [("clients", .obj [("total", .int s.clients.total), ("wifi", .int s.clients.wifi)]),
        ("uptime", .int s.uptime),
        ("node_id", .str s.node_id),
        ("loadavg", .num s.loadavg),
        ("memory", .obj [("total", .int s.memory.total), ("free", .int s.memory.free),
                         ("buffers", .int s.memory.buffers)])]

/-! ## Record Mapper (`getNodeInfos`, `getStatistics`) -/

/-- `ResponddClient.getNodeInfos` (lines 95-109): one `NodeInfo` per
access point, `release` hard-coded to the empty string, `node_id` the
colon-stripped hardware address.  The `self._aps` fetch happens at the
caller (`buildStruct` below), which passes the fetched list in. -/
def getNodeInfos (aps : List AccessPoint) : List NodeInfo :=
  aps.map fun ap =>
    { firmware := { base := ap.firmware, release := "" }
      hostname := ap.name
      node_id := pyReplaceColonEmpty ap.mac
      location := { latitude := ap.latitude, longitude := ap.longitude }
      hardware := { model := ap.model }
      owner := { contact := ap.contact } }

/-- `ResponddClient.getStatistics` (lines 111-128): one
`StatisticsInfo` per access point; `wifi` duplicates `client_count`;
memory fields are `int(bytes / 1024)`. -/
def getStatistics (aps : List AccessPoint) : List StatisticsInfo :=
  aps.map fun ap =>
    { clients := { total := ap.client_count, wifi := ap.client_count }
      uptime := ap.uptime
      node_id := pyReplaceColonEmpty ap.mac
      loadavg := ap.load_avg
      memory := { total := pyTrunc1024 ap.mem_total
                  free := pyTrunc1024 (ap.mem_total - ap.mem_used)
                  buffers := pyTrunc1024 ap.mem_buffer } }

/-! ## Responder pipeline -/

/-- A record of either kind, as the untyped Python lists hold
`NodeInfo` or `StatisticsInfo` objects. -/
inductive RInfo : Type where
  | node (n : NodeInfo)
  | stats (s : StatisticsInfo)
deriving DecidableEq

/-- `info.node_id`, available on both record kinds. -/
def RInfo.node_id : RInfo → String
  | .node n => n.node_id
  | .stats s => s.node_id

/-- `info.to_dict()`, available on both record kinds. -/
def RInfo.to_dict : RInfo → JVal
  | .node n => n.to_dict
  | .stats s => s.to_dict

/-- The dynamically typed Python value bound to `responseStruct` when
`sendStruct` is called: a dict (multi-request), a plain record list
(single request with a recognized kind), or `None` (single request with
an unrecognized kind, since `buildStruct` falls through to a bare
`return`). -/
inductive RespStruct : Type where
  | dict (m : List (String × Option (List RInfo)))
  | list (l : List RInfo)
  | pynone

/-- The Python exceptions the embedded code can raise. -/
inductive PyErr : Type where
  | unicodeDecodeError
  | attributeError
  | fetchError
deriving DecidableEq

/-- Destination address of a reply datagram (host, port). -/
abbrev Address : Type := String × Nat

/-- One `sendto` call: destination and payload bytes. -/
structure Sent where
  dest : Address
  data : List Nat
deriving DecidableEq

/-- The inner fold of `merge_node`: insert one record under its
`node_id` (lines 162-165).  A fresh `node_id` appends
`merged[info.node_id] = ⟨key: info⟩`; an existing one updates its
composite with `merged[info.node_id].update(⟨key: info⟩)`. -/
def insertNode : List (String × List (String × RInfo)) → String → RInfo →
    List (String × List (String × RInfo))
  | [], key, info => [(info.node_id, [(key, info)])]
  | (nid, comp) :: rest, key, info =>
    if nid = info.node_id then (nid, updateAssoc comp key info) :: rest
    else (nid, comp) :: insertNode rest key info

/-- The loop body of `merge_node` for one kind (lines 158-165): the
guard `if responseStruct[key]:` skips a falsy value (`None` from an
unrecognized kind, or an empty list); otherwise every record of the
kind's list is inserted under its `node_id`. -/
def mergeStep (m : List (String × List (String × RInfo)))
    (kv : String × Option (List RInfo)) : List (String × List (String × RInfo)) :=
  match kv.2 with
  | none => m
  | some infos =>
    if infos.isEmpty then m
    else infos.foldl (fun m' i => insertNode m' kv.1 i) m

/-- `ResponddClient.merge_node` restricted to a dict argument
(lines 156-166): iterate the kinds in insertion order, folding
`mergeStep` over the `(key, value)` items starting from the empty
`merged` dict. -/
def mergeDict (resp : List (String × Option (List RInfo))) :
    List (String × List (String × RInfo)) :=
  resp.foldl mergeStep []

/-- `ResponddClient.merge_node` (lines 156-166).  The body starts with
`for key in responseStruct.keys()`: only a dict has `.keys()`, so the
plain list and the `None` that the single-request branch passes in raise
`AttributeError`. -/
def merge_node : RespStruct → Except PyErr (List (String × List (String × RInfo)))
  | .dict m => .ok (mergeDict m)
  | .list _ => .error .attributeError
  | .pynone => .error .attributeError

/-- The per-node JSON document built inside `sendStruct`
(lines 190-192): `node = ⟨⟩; node.update(⟨key: info.to_dict()⟩)` over
the composite. -/
def nodeDoc (infos : List (String × RInfo)) : JVal :=
  .obj (infos.foldl (fun node kv => updateAssoc node kv.1 kv.2.to_dict) [])

/-- `ResponddClient.sendStruct` (lines 181-204), with the two external
codecs passed in: `dumps` stands for `bytes(json.dumps(node), "UTF-8")`
and `deflate` for the raw-deflate compressor
`zlib.compressobj(Z_DEFAULT_COMPRESSION, DEFLATED, -15)`.  One datagram
per merged node; the payload is compressed only when `withCompression`
is true. -/
def sendStruct (dumps : JVal → List Nat) (deflate : List Nat → List Nat)
    (destAddress : Address) (responseStruct : RespStruct) (withCompression : Bool) :
    Except PyErr (List Sent) :=
  (merge_node responseStruct).map fun merged =>
    merged.map fun entry =>
      let responseData := dumps (nodeDoc entry.2)
      let responseData := if withCompression then deflate responseData else responseData
      { dest := destAddress, data := responseData }

/-- `ResponddClient.buildStruct` (lines 168-179).  The data source is a
function from the fetch counter to the fetched access points
(`Except Unit` models a raised fetch error); each recognized kind
triggers exactly one fetch via the `_statistics` / `_nodeinfos`
properties, advancing the counter.  An unrecognized kind logs and
returns `None` without fetching. -/
def buildStruct (src : Nat → Except Unit (List AccessPoint)) (cnt : Nat)
    (responseType : String) : Except PyErr (Option (List RInfo) × Nat) :=
  if responseType = "statistics" then
    match src cnt with
    | .error _ => .error .fetchError
    | .ok aps => .ok (some ((getStatistics aps).map RInfo.stats), cnt + 1)
  else if responseType = "nodeinfo" then
    match src cnt with
    | .error _ => .error .fetchError
    | .ok aps => .ok (some ((getNodeInfos aps).map RInfo.node), cnt + 1)
  else
    .ok (none, cnt)

/-- The dict-building loop of the multi-request branch (lines 148-151):
`responseStruct[request] = self.buildStruct(request)` for each token
after `GET`, in order. -/
def buildAll (src : Nat → Except Unit (List AccessPoint)) :
    List String → List (String × Option (List RInfo)) → Nat →
    Except PyErr (List (String × Option (List RInfo)) × Nat)
  | [], acc, cnt => .ok (acc, cnt)
  | k :: ks, acc, cnt =>
    match buildStruct src cnt k with
    | .error e => .error e
    | .ok (v, cnt') => buildAll src ks (updateAssoc acc k v) cnt'

/-- A parsed request: the branch taken at line 148. -/
inductive Request : Type where
  | multi (kinds : List String)
  | single (kind : String)
deriving DecidableEq

/-- The request classification of `start` (lines 145-154): split the
decoded text on single spaces; if the first token is the literal `GET`,
the remaining tokens are a multi-request, otherwise the first token is a
single-request kind.  `split` never returns an empty list, so
`msgSplit[0]` is total (`headD` with an unreachable default). -/
def parseRequest (text : String) : Request :=
  let msgSplit := pySplitSpace text
  if msgSplit.headD "" = "GET" then .multi msgSplit.tail
  else .single (msgSplit.headD "")

/-- The body of the serving loop after parsing: build, merge, encode,
send (lines 147-154).  The single-request branch passes `buildStruct`'s
raw result (a list or `None`) to `sendStruct`. -/
def handleRequest (dumps : JVal → List Nat) (deflate : List Nat → List Nat)
    (src : Nat → Except Unit (List AccessPoint)) (cnt : Nat) (sourceAddress : Address) :
    Request → Except PyErr (List Sent × Nat)
  | .multi kinds =>
    match buildAll src kinds [] cnt with
    | .error e => .error e
    | .ok (resp, cnt') =>
      match sendStruct dumps deflate sourceAddress (.dict resp) true with
      | .error e => .error e
      | .ok sent => .ok (sent, cnt')
  | .single kind =>
    match buildStruct src cnt kind with
    | .error e => .error e
    | .ok (o, cnt') =>
      match sendStruct dumps deflate sourceAddress
          (match o with | none => .pynone | some l => .list l) false with
      | .error e => .error e
      | .ok sent => .ok (sent, cnt')

/-- Handling of one inbound datagram (lines 143-154): decode the payload
as UTF-8 (raising `UnicodeDecodeError` on invalid bytes), classify, and
run the request. -/
def handleDatagram (dumps : JVal → List Nat) (deflate : List Nat → List Nat)
    (src : Nat → Except Unit (List AccessPoint)) (cnt : Nat)
    (sourceAddress : Address) (msg : List Nat) : Except PyErr (List Sent × Nat) :=
  match utf8Decode msg with
  | none => .error .unicodeDecodeError
  | some chars => handleRequest dumps deflate src cnt sourceAddress (parseRequest (String.mk chars))

/-- The `while True` serving loop of `ResponddClient.start`
(lines 142-154), run over a finite prefix of inbound datagrams.  There
is no try/except anywhere in the loop, so the first exception raised
while handling a datagram propagates and terminates the loop; replies of
a successfully handled datagram are collected and the loop recurses with
the threaded fetch counter. -/
def serveLoop (dumps : JVal → List Nat) (deflate : List Nat → List Nat)
    (src : Nat → Except Unit (List AccessPoint)) :
    Nat → List (Address × List Nat) → Except PyErr (List Sent)
  | _, [] => .ok []
  | cnt, (addr, msg) :: rest =>
    match handleDatagram dumps deflate src cnt addr msg with
    | .error e => .error e
    | .ok (sent, cnt') =>
      match serveLoop dumps deflate src cnt' rest with
      | .error e => .error e
      | .ok sentRest => .ok (sent ++ sentRest)

/-- Modelled from the spec: the specification's request tokenization,
"decode payload as UTF-8 text; split on whitespace into tokens", i.e.
Python `text.split()` with no argument, which splits on every whitespace
character and drops empty tokens.  Used only to compare the
specification's tokenizer with the one the code actually uses
(`text.split(" ")`). -/
def splitWhitespaceChars : List Char → List (List Char)
  | [] => [[]]
  | c :: cs =>
    let r := splitWhitespaceChars cs
    if c.isWhitespace then [] :: r
    else
      match r with
      | t :: ts => (c :: t) :: ts
      | [] => [[c]]

/-- Modelled from the spec: whitespace tokenization with empty tokens
dropped (see `splitWhitespaceChars`). -/
def specSplitWhitespace (s : String) : List String :=
  ((splitWhitespaceChars s.toList).filter (fun t => !t.isEmpty)).map String.mk

/-! ## Sample codecs and fixtures

The external codecs (`json.dumps`, the raw-deflate stream) only enter
theorems through their contracts; the concrete functions below are
simple executable stand-ins used to discharge those contracts in
witness theorems and to evaluate closed scenarios. -/

/-- Length-prefixed encoding of a string, for the sample serializer. -/
def encStr (s : String) : List Nat :=
  s.length :: s.toList.map Char.toNat

/-- Sign-tag encoding of an integer, for the sample serializer. -/
def encInt : Int → List Nat
  | .ofNat n => [0, n]
  | .negSucc n => [1, n]

/-- Fuelled body of the sample JSON serializer. -/
def jserAux : Nat → JVal → List Nat
  | 0, _ => []
  | fuel + 1, v =>
    match v with
    | .str s => 0 :: encStr s
    | .int n => 1 :: encInt n
    | .num q => 2 :: encInt q.num ++ [q.den]
    | .obj fs => 3 :: fs.length :: fs.foldr (fun kv acc => encStr kv.1 ++ jserAux fuel kv.2 ++ acc) []

/-- Sample stand-in for `json.dumps`: a concrete executable serializer
(documents nested deeper than 1000 levels, which never occur here, are
cut off by the fuel). -/
def jser (v : JVal) : List Nat := jserAux 1000 v

/-- Sample stand-in for the raw-deflate compressor: prefix the length. -/
def sampleDeflate (bs : List Nat) : List Nat := bs.length :: bs

/-- Decompressor matching `sampleDeflate`; satisfies the raw-deflate
round-trip contract. -/
def sampleInflate (bs : List Nat) : Option (List Nat) := some bs.tail

/-- A concrete access point used in witnesses and counterexamples. -/
def ap0 : AccessPoint :=
  { name := "gw1", mac := "AA:BB:CC:DD:EE:FF", firmware := "6.5.28",
    latitude := 50, longitude := 7, model := "U6-LR", contact := "ops@example.net",
    client_count := 12, uptime := 3600, load_avg := 1,
    mem_total := 1048576, mem_used := 524288, mem_buffer := 4096 }

/-- The `NodeInfo` the Record Mapper produces from `ap0`. -/
def n0 : NodeInfo :=
  { firmware := { base := "6.5.28", release := "" }, hostname := "gw1",
    node_id := "AABBCCDDEEFF",
    location := { latitude := 50, longitude := 7 },
    hardware := { model := "U6-LR" }, owner := { contact := "ops@example.net" } }

/-- A second, different access point (a later inventory snapshot). -/
def apY : AccessPoint :=
  { ap0 with name := "gw2", mac := "11:22:33:44:55:66" }

/-- An access point whose memory byte count exceeds `2 ^ 53`
(`2 ^ 53 + 1023` bytes). -/
def apBig : AccessPoint :=
  { ap0 with mem_total := 9007199254742015, mem_used := 0, mem_buffer := 0 }

/-- A data source whose every fetch yields exactly `ap0`. -/
def srcOne : Nat → Except Unit (List AccessPoint) := fun _ => .ok [ap0]

/-- A data source whose every fetch fails. -/
def srcFail : Nat → Except Unit (List AccessPoint) := fun _ => .error ()

/-- A data source that fails on the first fetch only. -/
def srcFlaky : Nat → Except Unit (List AccessPoint) :=
  fun n => if n = 0 then .error () else .ok [ap0]

/-- A data source whose first fetch sees `ap0` and whose later fetches
see a changed inventory `apY`. -/
def srcTwo : Nat → Except Unit (List AccessPoint) :=
  fun n => if n = 0 then .ok [ap0] else .ok [apY]

/-! ## Lemmas about the numeric model -/

/-- Naturals up to `2 ^ 53` are exactly representable as doubles. -/
theorem rtdNat_eq_self {n : Nat} (h : n ≤ 2 ^ 53) : rtdNat n = n := by
  unfold rtdNat
  exact if_pos h

/-- For `0 ≤ x ≤ 2 ^ 53`, Python `int(x / 1024)` coincides with
truncating integer division by 1024. -/
theorem pyTrunc1024_eq_div {x : Int} (h0 : 0 ≤ x) (h : x ≤ ((2 ^ 53 : Nat) : Int)) :
    pyTrunc1024 x = ((x.toNat / 1024 : Nat) : Int) := by
  unfold pyTrunc1024
  rw [if_pos h0, rtdNat_eq_self (Int.toNat_le.mpr h)]

/-! ## Claim C2 -/

/-- C2 (amended): for every access-point record, the `node_id` of the
`NodeInfo` built from it equals the `node_id` of the `StatisticsInfo`
built from it, and both equal the hardware address with all colon
separators removed — with the letter case preserved exactly as supplied
by the source, not normalized to lowercase. -/
theorem c2_node_id_from_mac (aps : List AccessPoint) :
    ((getNodeInfos aps).map fun n => n.node_id) =
      (aps.map fun ap => pyReplaceColonEmpty ap.mac) ∧
    ((getStatistics aps).map fun s => s.node_id) =
      (aps.map fun ap => pyReplaceColonEmpty ap.mac) := by
  constructor <;> simp [getNodeInfos, getStatistics]

/-- C2 counterexample: the claim says mac `AA:BB:CC:DD:EE:FF` yields
node_id `aabbccddeeff`; the code yields `AABBCCDDEEFF` (case is not
normalized). -/
theorem c2_counterexample :
    ((getNodeInfos [ap0]).map fun n => n.node_id) = ["AABBCCDDEEFF"] ∧
    "AABBCCDDEEFF" ≠ "aabbccddeeff" := by
  exact ⟨by decide, by decide⟩

/-! ## Claim C9 -/

/-- C9: every `NodeInfo` the Record Mapper produces has
`firmware.release` equal to the empty string, regardless of the
access-point record's contents (line 101 hard-codes `release=""`). -/
theorem c9_release_always_empty (aps : List AccessPoint) (n : NodeInfo)
    (h : n ∈ getNodeInfos aps) : n.firmware.release = "" := by
  simp only [getNodeInfos, List.mem_map] at h
  obtain ⟨ap, -, h2⟩ := h
  rw [← h2]

/-- C9 witness: the hypothesis is satisfiable — the `NodeInfo` built
from `ap0` is produced by the mapper and has an empty release. -/
theorem c9_witness : n0 ∈ getNodeInfos [ap0] ∧ n0.firmware.release = "" :=
  ⟨by decide, c9_release_always_empty [ap0] n0 (by decide)⟩

/-! ## Claim C4 -/

/-- C4 (amended): for memory byte counts `T ≥ U ≥ 0` that do not exceed
`2 ^ 53` (so they are exactly representable as IEEE-754 doubles), the
`StatisticsInfo` memory fields equal truncating integer division by
1024: `total = T / 1024`, `free = (T - U) / 1024`,
`buffers = B / 1024`.  Beyond `2 ^ 53` the Python float division
`int(x / 1024)` first rounds the byte count to the nearest double, so
the claim's pure integer division fails there (see the
counterexample). -/
theorem c4_memory_kib (T U B : Int) (ap : AccessPoint)
    (hU0 : 0 ≤ U) (hUT : U ≤ T) (hT : T ≤ ((2 ^ 53 : Nat) : Int))
    (hB0 : 0 ≤ B) (hB : B ≤ ((2 ^ 53 : Nat) : Int))
    (hmt : ap.mem_total = T) (hmu : ap.mem_used = U) (hmb : ap.mem_buffer = B) :
    ((getStatistics [ap]).map fun s => s.memory) =
      [{ total := ((T.toNat / 1024 : Nat) : Int),
         free := (((T - U).toNat / 1024 : Nat) : Int),
         buffers := ((B.toNat / 1024 : Nat) : Int) }] := by
  have hT0 : 0 ≤ T := hU0.trans hUT
  have hTU0 : 0 ≤ T - U := sub_nonneg.mpr hUT
  have hTU : T - U ≤ ((2 ^ 53 : Nat) : Int) := le_trans (by omega) hT
  simp [getStatistics, hmt, hmu, hmb, pyTrunc1024_eq_div hT0 hT,
        pyTrunc1024_eq_div hTU0 hTU, pyTrunc1024_eq_div hB0 hB]

/-- C4 witness: concrete byte counts `T = 1048576`, `U = 524288`,
`B = 4096` satisfy the hypotheses and yield 1024, 512 and 4 KiB. -/
theorem c4_witness :
    ((0 : Int) ≤ 524288 ∧ (524288 : Int) ≤ 1048576 ∧
      (1048576 : Int) ≤ ((2 ^ 53 : Nat) : Int)) ∧
    ((getStatistics [ap0]).map fun s => s.memory) =
      [{ total := 1024, free := 512, buffers := 4 }] := by
  refine ⟨⟨by decide, by decide, by decide⟩, ?_⟩
  have h := c4_memory_kib 1048576 524288 4096 ap0 (by decide) (by decide)
    (by decide) (by decide) (by decide) rfl rfl rfl
  exact h.trans (by decide)

/-- C4 counterexample: at `T = 2 ^ 53 + 1023 = 9007199254742015` bytes
(`U = B = 0`), the code computes `total = 8796093022209` (the byte
count is first rounded up to the nearest double, `2 ^ 53 + 1024`),
while truncating integer division gives
`9007199254742015 / 1024 = 8796093022208`. -/
theorem c4_counterexample :
    ((getStatistics [apBig]).map fun s => s.memory.total) = [(8796093022209 : Int)] ∧
    (9007199254742015 : Nat) / 1024 = 8796093022208 ∧
    (8796093022209 : Int) ≠ ((8796093022208 : Nat) : Int) := by
  exact ⟨by decide, by decide, by decide⟩


/-! ## Claim C5: merge correctness lemmas -/

/-- Updating a key makes it present; other keys keep their presence. -/
theorem lookupA_updateAssoc_isSome {β : Type} (m : List (String × β)) (k : String)
    (v : β) (k' : String) :
    (lookupA (updateAssoc m k v) k').isSome ↔ k' = k ∨ (lookupA m k').isSome := by
  induction m with
  | nil =>
    by_cases h : k = k'
    · subst h
      simp [updateAssoc, lookupA]
    · simp [updateAssoc, lookupA, h, Ne.symm h]
  | cons hd tl ih =>
    obtain ⟨a, b⟩ := hd
    by_cases hak : a = k
    · subst hak
      by_cases hak' : a = k'
      · subst hak'
        simp [updateAssoc, lookupA]
      · simp [updateAssoc, lookupA, hak', Ne.symm hak']
    · by_cases hak' : a = k'
      · subst hak'
        simp [updateAssoc, lookupA, hak]
      · simp [updateAssoc, lookupA, hak, hak', ih]

/-- Effect of one `merge_node` insertion on "the composite for `nid`
contains kind `k`". -/
theorem lookupA_insertNode (m : List (String × List (String × RInfo)))
    (key : String) (info : RInfo) (nid k : String) :
    (∃ comp, lookupA (insertNode m key info) nid = some comp ∧ (lookupA comp k).isSome) ↔
    ((∃ comp, lookupA m nid = some comp ∧ (lookupA comp k).isSome) ∨
      (info.node_id = nid ∧ k = key)) := by
  induction m with
  | nil =>
    by_cases h : info.node_id = nid
    · by_cases hkk : k = key
      · simp [insertNode, lookupA, h, hkk]
      · simp [insertNode, lookupA, h, hkk, Ne.symm hkk]
    · simp [insertNode, lookupA, h]
  | cons hd tl ih =>
    obtain ⟨a, comp⟩ := hd
    by_cases haI : a = info.node_id
    · by_cases han : info.node_id = nid
      · simp [insertNode, lookupA, haI, han, lookupA_updateAssoc_isSome, or_comm]
      · simp [insertNode, lookupA, haI, han]
    · by_cases han : a = nid
      · simp [insertNode, lookupA, haI, han,
              show ¬(info.node_id = nid) from fun hh => haI (han.trans hh.symm),
              show ¬(nid = info.node_id) from fun hh => haI (han.trans hh)]
      · simp [insertNode, lookupA, haI, han, ih]

/-- Effect of inserting one whole kind list. -/
theorem lookupA_foldl_insert (infos : List RInfo) (key : String)
    (m : List (String × List (String × RInfo))) (nid k : String) :
    (∃ comp, lookupA (infos.foldl (fun m' i => insertNode m' key i) m) nid = some comp ∧
        (lookupA comp k).isSome) ↔
    ((∃ comp, lookupA m nid = some comp ∧ (lookupA comp k).isSome) ∨
      (k = key ∧ ∃ i ∈ infos, RInfo.node_id i = nid)) := by
  induction infos generalizing m with
  | nil => simp
  | cons i rest ih =>
    rw [List.foldl_cons, ih, lookupA_insertNode]
    constructor
    · rintro ((h | ⟨h1, h2⟩) | ⟨h1, h2⟩)
      · exact Or.inl h
      · exact Or.inr ⟨h2, i, List.mem_cons_self i rest, h1⟩
      · obtain ⟨j, hj, hjn⟩ := h2
        exact Or.inr ⟨h1, j, List.mem_cons_of_mem i hj, hjn⟩
    · rintro (h | ⟨h1, j, hj, hjn⟩)
      · exact Or.inl (Or.inl h)
      · rcases List.mem_cons.mp hj with rfl | hj'
        · exact Or.inl (Or.inr ⟨hjn, h1⟩)
        · exact Or.inr ⟨h1, j, hj', hjn⟩

/-- Unfolding equations for `mergeStep`. -/
theorem mergeStep_none (m : List (String × List (String × RInfo))) (key : String) :
    mergeStep m (key, none) = m := rfl

/-- Unfolding equation for an empty kind list (falsy in Python). -/
theorem mergeStep_some_nil (m : List (String × List (String × RInfo))) (key : String) :
    mergeStep m (key, some []) = m := rfl

/-- Unfolding equation for a non-empty kind list. -/
theorem mergeStep_some_cons (m : List (String × List (String × RInfo))) (key : String)
    (i : RInfo) (infos : List RInfo) :
    mergeStep m (key, some (i :: infos)) =
      (i :: infos).foldl (fun m' i' => insertNode m' key i') m := rfl

/-- Effect of the whole `merge_node` fold, with an arbitrary initial
accumulator. -/
theorem lookupA_mergeDict_aux (resp : List (String × Option (List RInfo)))
    (m : List (String × List (String × RInfo))) (nid k : String) :
    (∃ comp, lookupA (resp.foldl mergeStep m) nid = some comp ∧ (lookupA comp k).isSome) ↔
    ((∃ comp, lookupA m nid = some comp ∧ (lookupA comp k).isSome) ∨
      (∃ l, (k, some l) ∈ resp ∧ ∃ i ∈ l, RInfo.node_id i = nid)) := by
  induction resp generalizing m with
  | nil => simp
  | cons hd rest ih =>
    obtain ⟨key, val⟩ := hd
    rw [List.foldl_cons]
    rcases val with _ | ⟨_ | ⟨i, infos⟩⟩
    · rw [mergeStep_none, ih]
      constructor
      · rintro (h | ⟨l, hl, hi⟩)
        · exact Or.inl h
        · exact Or.inr ⟨l, List.mem_cons_of_mem _ hl, hi⟩
      · rintro (h | ⟨l, hl, hi⟩)
        · exact Or.inl h
        · rcases List.mem_cons.mp hl with heq | hl'
          · simp at heq
          · exact Or.inr ⟨l, hl', hi⟩
    · rw [mergeStep_some_nil, ih]
      constructor
      · rintro (h | ⟨l, hl, hi⟩)
        · exact Or.inl h
        · exact Or.inr ⟨l, List.mem_cons_of_mem _ hl, hi⟩
      · rintro (h | ⟨l, hl, hi⟩)
        · exact Or.inl h
        · rcases List.mem_cons.mp hl with heq | hl'
          · simp only [Prod.mk.injEq, Option.some.injEq] at heq
            obtain ⟨-, rfl⟩ := heq
            exact absurd hi (by simp)
          · exact Or.inr ⟨l, hl', hi⟩
    · rw [mergeStep_some_cons, ih, lookupA_foldl_insert]
      constructor
      · rintro ((h | ⟨h1, h2⟩) | ⟨l, hl, hi⟩)
        · exact Or.inl h
        · exact Or.inr ⟨i :: infos, by rw [h1]; exact List.mem_cons_self _ _, h2⟩
        · exact Or.inr ⟨l, List.mem_cons_of_mem _ hl, hi⟩
      · rintro (h | ⟨l, hl, hi⟩)
        · exact Or.inl (Or.inl h)
        · rcases List.mem_cons.mp hl with heq | hl'
          · simp only [Prod.mk.injEq, Option.some.injEq] at heq
            obtain ⟨h1, rfl⟩ := heq
            exact Or.inl (Or.inr ⟨h1, hi⟩)
          · exact Or.inr ⟨l, hl', hi⟩

/-- C5: the merge (`merge_node` on the kind-to-record-list dict) maps a
`node_id` to a composite containing exactly the kinds whose record list
holds a record with that `node_id`: a node present in both requested
kind lists gets both sub-records (instantiate `k` at each kind; the
composite is the same because `lookupA (mergeDict resp) nid` is a
single value), a node present in only one list gets exactly that one
(left-to-right direction), and a node is never dropped while it appears
in at least one requested kind's list (right-to-left direction yields
its composite). -/
theorem c5_merge_characterization (resp : List (String × Option (List RInfo)))
    (nid k : String) :
    (∃ comp, lookupA (mergeDict resp) nid = some comp ∧ (lookupA comp k).isSome) ↔
    (∃ l, (k, some l) ∈ resp ∧ ∃ i ∈ l, RInfo.node_id i = nid) := by
  have h := lookupA_mergeDict_aux resp [] nid k
  constructor
  · intro hx
    refine (h.mp hx).resolve_left ?_
    rintro ⟨c, hc, -⟩
    cases hc
  · intro hx
    exact h.mpr (Or.inr hx)

/-! ## Claim C7: wire encoding round-trip -/

/-- Unfolding a dict update at a present head key. -/
theorem updateAssoc_cons_eq {β : Type} (a : String) (b : β) (tl : List (String × β))
    (v : β) : updateAssoc ((a, b) :: tl) a v = (a, v) :: tl := by
  simp [updateAssoc]

/-- Unfolding a dict update at an absent head key. -/
theorem updateAssoc_cons_ne {β : Type} (a : String) (b : β) (tl : List (String × β))
    (k : String) (v : β) (h : ¬a = k) :
    updateAssoc ((a, b) :: tl) k v = (a, b) :: updateAssoc tl k v := by
  simp [updateAssoc, h]

/-- Membership of keys after a dict update. -/
theorem mem_updateAssoc_fst {β : Type} (m : List (String × β)) (k : String) (v : β)
    (x : String) :
    x ∈ (updateAssoc m k v).map Prod.fst ↔ x ∈ m.map Prod.fst ∨ x = k := by
  induction m with
  | nil => simp [updateAssoc]
  | cons hd tl ih =>
    obtain ⟨a, b⟩ := hd
    by_cases hak : a = k
    · subst hak
      rw [updateAssoc_cons_eq]
      simp only [List.map_cons, List.mem_cons]
      tauto
    · rw [updateAssoc_cons_ne a b tl k v hak]
      simp only [List.map_cons, List.mem_cons]
      rw [ih]
      tauto

/-- A dict update preserves key uniqueness. -/
theorem updateAssoc_fst_nodup {β : Type} (m : List (String × β)) (k : String) (v : β)
    (h : (m.map Prod.fst).Nodup) : ((updateAssoc m k v).map Prod.fst).Nodup := by
  induction m with
  | nil => simp [updateAssoc]
  | cons hd tl ih =>
    obtain ⟨a, b⟩ := hd
    simp only [List.map_cons, List.nodup_cons] at h
    obtain ⟨ha, htl⟩ := h
    by_cases hak : a = k
    · subst hak
      rw [updateAssoc_cons_eq]
      simp only [List.map_cons, List.nodup_cons]
      exact ⟨ha, htl⟩
    · rw [updateAssoc_cons_ne a b tl k v hak]
      simp only [List.map_cons, List.nodup_cons]
      refine ⟨?_, ih htl⟩
      intro hmem
      rcases (mem_updateAssoc_fst tl k v a).mp hmem with h1 | h1
      · exact ha h1
      · exact hak h1

/-- Every composite object in the merge accumulator has unique kind
keys. -/
def ValidComps (m : List (String × List (String × RInfo))) : Prop :=
  ∀ p ∈ m, ((p.2.map Prod.fst).Nodup)

/-- One insertion preserves composite key uniqueness. -/
theorem validComps_insertNode (m : List (String × List (String × RInfo)))
    (key : String) (info : RInfo) (h : ValidComps m) :
    ValidComps (insertNode m key info) := by
  induction m with
  | nil =>
    intro p hp
    simp only [insertNode, List.mem_singleton] at hp
    subst hp
    simp
  | cons hd tl ih =>
    obtain ⟨a, comp⟩ := hd
    have hcomp : (comp.map Prod.fst).Nodup := h (a, comp) (by simp)
    have htl : ValidComps tl := fun p hp => h p (List.mem_cons_of_mem _ hp)
    intro p hp
    by_cases haI : a = info.node_id
    · rw [show insertNode ((a, comp) :: tl) key info =
          (a, updateAssoc comp key info) :: tl from by simp [insertNode, haI]] at hp
      rcases List.mem_cons.mp hp with h1 | h1
      · subst h1
        exact updateAssoc_fst_nodup comp key info hcomp
      · exact htl p h1
    · rw [show insertNode ((a, comp) :: tl) key info =
          (a, comp) :: insertNode tl key info from by simp [insertNode, haI]] at hp
      rcases List.mem_cons.mp hp with h1 | h1
      · subst h1
        exact hcomp
      · exact ih htl p h1

/-- Inserting a whole kind list preserves composite key uniqueness. -/
theorem validComps_foldl_insert (infos : List RInfo) (key : String)
    (m : List (String × List (String × RInfo))) (h : ValidComps m) :
    ValidComps (infos.foldl (fun m' i => insertNode m' key i) m) := by
  induction infos generalizing m with
  | nil => exact h
  | cons i rest ih =>
    rw [List.foldl_cons]
    exact ih _ (validComps_insertNode m key i h)

/-- The whole merge keeps composite key uniqueness. -/
theorem validComps_mergeDict_aux (resp : List (String × Option (List RInfo)))
    (m : List (String × List (String × RInfo))) (h : ValidComps m) :
    ValidComps (resp.foldl mergeStep m) := by
  induction resp generalizing m with
  | nil => exact h
  | cons hd rest ih =>
    obtain ⟨key, val⟩ := hd
    rw [List.foldl_cons]
    rcases val with _ | ⟨_ | ⟨i, infos⟩⟩
    · rw [mergeStep_none]
      exact ih _ h
    · rw [mergeStep_some_nil]
      exact ih _ h
    · rw [mergeStep_some_cons]
      exact ih _ (validComps_foldl_insert _ key m h)

/-- Composites produced by `merge_node` have unique kind keys. -/
theorem validComps_mergeDict (resp : List (String × Option (List RInfo))) :
    ValidComps (mergeDict resp) :=
  validComps_mergeDict_aux resp [] (by intro p hp; cases hp)

/-- Updating a fresh key appends it. -/
theorem updateAssoc_append {β : Type} (m : List (String × β)) (k : String) (v : β)
    (h : k ∉ m.map Prod.fst) : updateAssoc m k v = m ++ [(k, v)] := by
  induction m with
  | nil => simp [updateAssoc]
  | cons hd tl ih =>
    obtain ⟨a, b⟩ := hd
    simp only [List.map_cons, List.mem_cons] at h
    push_neg at h
    obtain ⟨h1, h2⟩ := h
    have hka : ¬a = k := fun hh => h1 hh.symm
    rw [updateAssoc_cons_ne a b tl k v hka, ih h2]
    simp

/-- Folding dict updates over pairwise-distinct fresh keys is just a
map. -/
theorem foldl_updateAssoc_eq_map (l : List (String × RInfo)) (acc : List (String × JVal))
    (hnd : (l.map Prod.fst).Nodup) (hdisj : ∀ x ∈ l.map Prod.fst, x ∉ acc.map Prod.fst) :
    l.foldl (fun n kv => updateAssoc n kv.1 kv.2.to_dict) acc =
      acc ++ l.map (fun kv => (kv.1, kv.2.to_dict)) := by
  induction l generalizing acc with
  | nil => simp
  | cons hd tl ih =>
    obtain ⟨k, i⟩ := hd
    simp only [List.map_cons, List.nodup_cons] at hnd
    obtain ⟨hk, htl⟩ := hnd
    rw [List.foldl_cons, updateAssoc_append acc k i.to_dict (hdisj k (by simp))]
    rw [ih (acc ++ [(k, i.to_dict)]) htl ?_]
    · simp
    · intro x hx
      simp only [List.map_append, List.mem_append, List.map_cons, List.map_nil,
        List.mem_singleton, not_or]
      refine ⟨hdisj x (by simp [hx]), ?_⟩
      intro hxk
      exact hk (hxk ▸ hx)

/-- The per-node JSON document of a composite with unique kind keys
lists exactly the composite's kinds, in order, each mapped by
`to_dict`. -/
theorem nodeDoc_eq_map (infos : List (String × RInfo))
    (h : (infos.map Prod.fst).Nodup) :
    nodeDoc infos = .obj (infos.map fun kv => (kv.1, kv.2.to_dict)) := by
  unfold nodeDoc
  rw [foldl_updateAssoc_eq_map infos [] h (by simp)]
  simp

/-- Computation of `sendStruct` on a dict argument. -/
theorem sendStruct_dict (dumps : JVal → List Nat) (deflate : List Nat → List Nat)
    (addr : Address) (resp : List (String × Option (List RInfo))) :
    sendStruct dumps deflate addr (.dict resp) true =
      .ok ((mergeDict resp).map fun entry =>
        Sent.mk addr (deflate (dumps (nodeDoc entry.2)))) := rfl

/-- Computation of `sendStruct` on a dict argument, compression off. -/
theorem sendStruct_dict_raw (dumps : JVal → List Nat) (deflate : List Nat → List Nat)
    (addr : Address) (resp : List (String × Option (List RInfo))) :
    sendStruct dumps deflate addr (.dict resp) false =
      .ok ((mergeDict resp).map fun entry =>
        Sent.mk addr (dumps (nodeDoc entry.2))) := rfl

/-- C7 (amended): for every reply datagram of a multi-request, the
payload is the raw-deflate compression of the JSON encoding of that
node's composite document, so a decompressor satisfying the raw-deflate
round-trip contract followed by a JSON parser satisfying the standard
parse/print contract recovers exactly the document whose fields are the
composite's kind names mapped to the corresponding records' attribute
dictionaries; with compression off (the encoder's single-request mode)
the payload is the JSON bytes directly.  The claim's further sentence
that single-value requests are *answered* with the uncompressed JSON
fails on the code: the single-request path crashes in `merge_node`
before sending anything (see the counterexample). -/
theorem c7_roundtrip (dumps : JVal → List Nat) (deflate : List Nat → List Nat)
    (inflate : List Nat → Option (List Nat)) (parse : List Nat → Option JVal)
    (resp : List (String × Option (List RInfo))) (addr : Address)
    (hz : ∀ bs, inflate (deflate bs) = some bs)
    (hj : ∀ nid infos, (nid, infos) ∈ mergeDict resp →
      parse (dumps (nodeDoc infos)) = some (nodeDoc infos)) :
    (∀ sent, sendStruct dumps deflate addr (.dict resp) true = .ok sent →
      ∀ d ∈ sent, ∃ nid infos, (nid, infos) ∈ mergeDict resp ∧ d.dest = addr ∧
        (inflate d.data).bind parse = some (nodeDoc infos) ∧
        nodeDoc infos = .obj (infos.map fun kv => (kv.1, kv.2.to_dict))) ∧
    (∀ sent, sendStruct dumps deflate addr (.dict resp) false = .ok sent →
      ∀ d ∈ sent, ∃ nid infos, (nid, infos) ∈ mergeDict resp ∧ d.dest = addr ∧
        d.data = dumps (nodeDoc infos)) := by
  constructor
  · intro sent hsent d hd
    rw [sendStruct_dict] at hsent
    injection hsent with hsent
    rw [← hsent] at hd
    obtain ⟨⟨nid, infos⟩, hmem, rfl⟩ := List.mem_map.mp hd
    refine ⟨nid, infos, hmem, rfl, ?_, ?_⟩
    · rw [hz]
      exact hj nid infos hmem
    · exact nodeDoc_eq_map infos (validComps_mergeDict resp (nid, infos) hmem)
  · intro sent hsent d hd
    rw [sendStruct_dict_raw] at hsent
    injection hsent with hsent
    rw [← hsent] at hd
    obtain ⟨⟨nid, infos⟩, hmem, rfl⟩ := List.mem_map.mp hd
    exact ⟨nid, infos, hmem, rfl, rfl⟩

/-- The composite of the single node of `resp0`. -/
def comp0 : List (String × RInfo) := [("nodeinfo", RInfo.node n0)]

/-- A one-kind, one-node response dict, as the multi-request
`GET nodeinfo` builds it from `srcOne`. -/
def resp0 : List (String × Option (List RInfo)) := [("nodeinfo", some [RInfo.node n0])]

/-- The per-node document of `comp0`. -/
def doc0 : JVal := nodeDoc comp0

/-- Sample stand-in for `json.loads`, defined on the document the
witness scenario emits. -/
def sampleParse : List Nat → Option JVal :=
  fun bs => if bs = jser doc0 then some doc0 else none

/-- Witness destination address. -/
def addr7 : Address := ("2001:db8::7", 1001)

/-- The one reply datagram of the witness scenario. -/
def d7 : Sent := ⟨addr7, sampleDeflate (jser doc0)⟩

/-- C7 witness: the codec contracts are satisfiable and the round-trip
theorem applies to the concrete one-node multi-request reply. -/
theorem c7_witness :
    sampleInflate (sampleDeflate (jser doc0)) = some (jser doc0) ∧
    ("AABBCCDDEEFF", comp0) ∈ mergeDict resp0 ∧
    d7.dest = addr7 ∧
    (sampleInflate d7.data).bind sampleParse = some (nodeDoc comp0) ∧
    nodeDoc comp0 = .obj (comp0.map fun kv => (kv.1, kv.2.to_dict)) := by
  have hz : ∀ bs, sampleInflate (sampleDeflate bs) = some bs := fun _ => rfl
  have hms : mergeDict resp0 = [("AABBCCDDEEFF", comp0)] := rfl
  have hj : ∀ nid infos, (nid, infos) ∈ mergeDict resp0 →
      sampleParse (jser (nodeDoc infos)) = some (nodeDoc infos) := by
    intro nid infos hm
    rw [hms] at hm
    simp only [List.mem_singleton, Prod.mk.injEq] at hm
    obtain ⟨-, rfl⟩ := hm
    simp [sampleParse, doc0]
  have hc := (c7_roundtrip jser sampleDeflate sampleInflate sampleParse resp0 addr7 hz hj).1
    _ (sendStruct_dict jser sampleDeflate addr7 resp0) d7
    (by rw [hms]; exact List.mem_singleton.mpr rfl)
  obtain ⟨nid, infos, hm, hdest, hrt, hfld⟩ := hc
  rw [hms] at hm
  simp only [List.mem_singleton, Prod.mk.injEq] at hm
  obtain ⟨-, rfl⟩ := hm
  exact ⟨hz _, by rw [hms]; exact List.mem_singleton.mpr rfl, hdest, hrt, hfld⟩

/-- C7 counterexample: a single-value request is not "answered with the
uncompressed JSON directly" — it is not answered at all.  Handling the
single request `statistics` raises `AttributeError`, because the
single-request branch hands `sendStruct` the plain record list returned
by `buildStruct` and `merge_node` calls `.keys()` on it. -/
theorem c7_counterexample :
    handleDatagram jser sampleDeflate srcOne 0 ("2001:db8::7", 1001)
      (asciiBytes "statistics") = .error .attributeError := rfl

/-! ## Claim C1 -/

/-- C1 (code bug): for the single-request datagram `nodeinfo` with one
access point, the responder does not send one uncompressed reply — it
sends nothing and raises.  The single-request branch (line 153) binds
`responseStruct` to the plain list `buildStruct` returns, and
`merge_node` (line 158) immediately calls `responseStruct.keys()`,
which a Python list does not have: `AttributeError`, no `sendto`, and
the serving loop dies. -/
theorem c1_single_request_crashes :
    handleDatagram jser sampleDeflate srcOne 0 ("2001:db8::1", 1001)
      (asciiBytes "nodeinfo") = .error .attributeError := rfl

/-! ## Claim C6 -/

/-- Address used in the C6 scenario. -/
def addr6 : Address := ("2001:db8::6", 1001)

/-- C6 (code bug): the multi-request half of the claim holds — in
`GET nodeinfo bogus` the unknown kind `bogus` contributes `None`, which
`merge_node`'s falsy check skips, so exactly one reply with only the
`nodeinfo` data is sent and nothing aborts.  The single-request half
fails on the code: for the datagram `bogus`, `buildStruct` logs and
returns `None`, and `merge_node` then calls `None.keys()` —
`AttributeError`, crashing the loop instead of silently ignoring the
request (no reply is sent, but the serving process dies with it). -/
theorem c6_unknown_kind :
    (handleDatagram jser sampleDeflate srcOne 0 addr6 (asciiBytes "GET nodeinfo bogus") =
      .ok ([⟨addr6, sampleDeflate (jser (nodeDoc [("nodeinfo", RInfo.node n0)]))⟩], 1)) ∧
    handleDatagram jser sampleDeflate srcOne 0 addr6 (asciiBytes "bogus") =
      .error .attributeError :=
  ⟨rfl, rfl⟩

/-! ## Claim C3 -/

/-- C3 (amended): the serving loop has no exception handling, so the
first error raised while handling a datagram (undecodable payload,
data-source fetch failure, or the `AttributeError` of the single-request
path) terminates the loop immediately: no later datagram is served.
Only datagrams whose handling raises nothing leave the loop running. -/
theorem c3_error_stops_loop (dumps : JVal → List Nat) (deflate : List Nat → List Nat)
    (src : Nat → Except Unit (List AccessPoint)) (cnt : Nat) (addr : Address)
    (msg : List Nat) (rest : List (Address × List Nat)) (e : PyErr)
    (h : handleDatagram dumps deflate src cnt addr msg = .error e) :
    serveLoop dumps deflate src cnt ((addr, msg) :: rest) = .error e := by
  simp [serveLoop, h]

/-- Addresses of the two datagrams in the C3 scenarios. -/
def addrA : Address := ("2001:db8::a", 2001)

/-- Address of the second C3 datagram. -/
def addrB : Address := ("2001:db8::b", 2002)

/-- C3 witness: with a failing data source, handling `GET nodeinfo`
raises a fetch error, and by the theorem the whole loop returns that
error. -/
theorem c3_witness :
    handleDatagram jser sampleDeflate srcFail 0 addrA (asciiBytes "GET nodeinfo") =
      .error .fetchError ∧
    serveLoop jser sampleDeflate srcFail 0
      [(addrA, asciiBytes "GET nodeinfo"), (addrB, asciiBytes "GET statistics")] =
      .error .fetchError :=
  ⟨rfl, c3_error_stops_loop jser sampleDeflate srcFail 0 addrA
    (asciiBytes "GET nodeinfo") [(addrB, asciiBytes "GET statistics")] .fetchError rfl⟩

/-- C3 counterexample: the claim says a data-source fetch error while
serving one datagram is isolated to that request and the loop continues.
With a source that fails only on its first fetch, serving
`[GET nodeinfo, GET nodeinfo]` returns the first datagram's fetch error
and never serves the second — even though handling the second datagram
on its own (second fetch, counter 1) succeeds and would have produced a
reply. -/
theorem c3_counterexample :
    serveLoop jser sampleDeflate srcFlaky 0
      [(addrA, asciiBytes "GET nodeinfo"), (addrB, asciiBytes "GET nodeinfo")] =
      .error .fetchError ∧
    handleDatagram jser sampleDeflate srcFlaky 1 addrB (asciiBytes "GET nodeinfo") =
      .ok ([⟨addrB, sampleDeflate (jser (nodeDoc [("nodeinfo", RInfo.node n0)]))⟩], 2) :=
  ⟨rfl, rfl⟩

/-! ## Claim C8 -/

/-- C8 (amended): every inbound datagram payload is decoded as UTF-8
text and split on the single space character U+0020 — not on general
whitespace: consecutive spaces yield empty tokens and tabs or newlines
do not separate tokens.  If and only if the first token is the literal
`GET` are the subsequent tokens treated as a multi-request's kinds;
otherwise the first token is the single-request kind. -/
theorem c8_request_parsing (text : String) :
    (∀ kinds, parseRequest text = .multi kinds ↔
      ((pySplitSpace text).headD "" = "GET" ∧ (pySplitSpace text).tail = kinds)) ∧
    (∀ kind, parseRequest text = .single kind ↔
      (¬(pySplitSpace text).headD "" = "GET" ∧ (pySplitSpace text).headD "" = kind)) := by
  rw [show parseRequest text =
      (if (pySplitSpace text).headD "" = "GET" then Request.multi (pySplitSpace text).tail
       else Request.single ((pySplitSpace text).headD "")) from rfl]
  simp only [List.headD_eq_head?]
  by_cases h : ((pySplitSpace text).head?).getD "" = "GET"
  · simp [h]
  · simp [h]

/-- C8 counterexample: the claim says tokens come from splitting on
whitespace, which would make the datagram text `GET\tnodeinfo` (a tab
between the words) a multi-request for `nodeinfo`; the code splits on
single spaces only, obtains the sole token `GET\tnodeinfo`, and treats
the datagram as a single request for the unknown kind `GET\tnodeinfo`. -/
theorem c8_counterexample :
    pySplitSpace "GET\tnodeinfo" = ["GET\tnodeinfo"] ∧
    specSplitWhitespace "GET\tnodeinfo" = ["GET", "nodeinfo"] ∧
    (specSplitWhitespace "GET\tnodeinfo").headD "" = "GET" ∧
    parseRequest "GET\tnodeinfo" = .single "GET\tnodeinfo" :=
  ⟨by decide, by decide, by decide, by decide⟩

/-! ## Claim C10 -/

/-- Computation of the multi-request branch once the built dict is
known. -/
theorem handleRequest_multi_ok (dumps : JVal → List Nat) (deflate : List Nat → List Nat)
    (src : Nat → Except Unit (List AccessPoint)) (cnt : Nat) (addr : Address)
    (kinds : List String) (resp : List (String × Option (List RInfo))) (cnt' : Nat)
    (h : buildAll src kinds [] cnt = .ok (resp, cnt')) :
    handleRequest dumps deflate src cnt addr (.multi kinds) =
      .ok ((mergeDict resp).map fun entry =>
        Sent.mk addr (deflate (dumps (nodeDoc entry.2))), cnt') := by
  have hr : handleRequest dumps deflate src cnt addr (.multi kinds) =
      (match buildAll src kinds [] cnt with
       | .error e => .error e
       | .ok (resp, cnt') =>
         match sendStruct dumps deflate addr (.dict resp) true with
         | .error e => .error e
         | .ok sent => .ok (sent, cnt')) := rfl
  rw [hr, h]
  rfl

/-- C10: each recognized kind of a multi-request triggers its own
independent fetch: handling `GET nodeinfo statistics` calls the data
source once while building the nodeinfo list (fetch number `cnt`) and
once more while building the statistics list (fetch number `cnt + 1`),
so the reply's nodeinfo records come from the first snapshot and its
statistics records from the second, and the fetch counter advances by
two. -/
theorem c10_two_fetches (src : Nat → Except Unit (List AccessPoint)) (cnt : Nat)
    (a0 a1 : List AccessPoint) (h0 : src cnt = .ok a0) (h1 : src (cnt + 1) = .ok a1) :
    buildAll src ["nodeinfo", "statistics"] [] cnt =
      .ok ([("nodeinfo", some ((getNodeInfos a0).map RInfo.node)),
            ("statistics", some ((getStatistics a1).map RInfo.stats))], cnt + 2) ∧
    (∀ dumps deflate addr, ∃ sent,
      handleRequest dumps deflate src cnt addr (.multi ["nodeinfo", "statistics"]) =
        .ok (sent, cnt + 2)) := by
  have e1 : buildStruct src cnt "nodeinfo" =
      .ok (some ((getNodeInfos a0).map RInfo.node), cnt + 1) := by
    unfold buildStruct
    rw [if_neg (by decide), if_pos rfl, h0]
  have e2 : buildStruct src (cnt + 1) "statistics" =
      .ok (some ((getStatistics a1).map RInfo.stats), cnt + 1 + 1) := by
    unfold buildStruct
    rw [if_pos rfl, h1]
  have hb : buildAll src ["nodeinfo", "statistics"] [] cnt =
      .ok ([("nodeinfo", some ((getNodeInfos a0).map RInfo.node)),
            ("statistics", some ((getStatistics a1).map RInfo.stats))], cnt + 2) := by
    simp [buildAll, e1, e2, updateAssoc]
  exact ⟨hb, fun dumps deflate addr =>
    ⟨_, handleRequest_multi_ok dumps deflate src cnt addr _ _ _ hb⟩⟩

/-- C10 witness: against a source whose inventory changes between the
two fetches, the nodeinfo and statistics halves of one multi-request
are drawn from two genuinely different snapshots. -/
theorem c10_witness :
    buildAll srcTwo ["nodeinfo", "statistics"] [] 0 =
      .ok ([("nodeinfo", some ((getNodeInfos [ap0]).map RInfo.node)),
            ("statistics", some ((getStatistics [apY]).map RInfo.stats))], 2) ∧
    [ap0] ≠ [apY] :=
  ⟨(c10_two_fetches srcTwo 0 [ap0] [apY] rfl rfl).1, by decide⟩
